import Mathlib

/-!
Verification of the celia-clips curation pipeline and job orchestration.

Shallow embedding of the Python sources:
- `src/curation/curator_v2.py` (virality scores, clip validation, chunking,
  deduplication, captions, the curation entry points),
- `src/job_store.py` (durable job records and their guarded transitions),
- `src/batch_processor.py` (score-threshold filtering and progress writes).

Modelling conventions: Python floats become `ℚ` (all arithmetic in the code
is on values where floating point rounding is irrelevant to the claims);
Python ints become `Int`; parsed-JSON dictionaries become structures of
`Option` fields (a `none` field models a missing key or a value of the wrong
type); calls to the external generation capability become oracle arguments
(`Except Unit` results: `Except.error` models an exception escaping the
call's retry loop); Python's stable `sorted`/`list.sort` becomes
`List.insertionSort` (stable, like CPython's sort).
-/

namespace CeliaClips

/-- Ten-dimension virality score, from `ViralityScoreV2` in `curator_v2.py`
(dataclass with ten integer fields, all defaulting to 0). -/
structure ViralityScoreV2 where
  hook_strength : Int := 0
  quotability : Int := 0
  storytelling : Int := 0
  controversy : Int := 0
  energy_level : Int := 0
  pacing : Int := 0
  emotional_arc : Int := 0
  standalone_clarity : Int := 0
  segment_completeness : Int := 0
  optimal_duration : Int := 0
  deriving DecidableEq, Repr

/-- `ViralityScoreV2.total`: the property computing the literal sum of the
ten sub-scores (there is no stored total field in the dataclass). -/
def ViralityScoreV2.total (v : ViralityScoreV2) : Int :=
  v.hook_strength + v.quotability + v.storytelling + v.controversy +
  v.energy_level + v.pacing + v.emotional_arc +
  v.standalone_clarity + v.segment_completeness + v.optimal_duration

/-- The parsed `virality_score` sub-dictionary of a ranked clip: each key may
be absent (`none`). -/
structure ScoreData where
  hook_strength : Option Int := none
  quotability : Option Int := none
  storytelling : Option Int := none
  controversy : Option Int := none
  energy_level : Option Int := none
  pacing : Option Int := none
  emotional_arc : Option Int := none
  standalone_clarity : Option Int := none
  segment_completeness : Option Int := none
  optimal_duration : Option Int := none
  deriving DecidableEq, Repr

/-- The `ViralityScoreV2(...)` construction in `curate_chunked` / `curate`:
every field is `score_data.get(key, 0)`. -/
def scoreFromData (d : ScoreData) : ViralityScoreV2 where
  hook_strength := d.hook_strength.getD 0
  quotability := d.quotability.getD 0
  storytelling := d.storytelling.getD 0
  controversy := d.controversy.getD 0
  energy_level := d.energy_level.getD 0
  pacing := d.pacing.getD 0
  emotional_arc := d.emotional_arc.getD 0
  standalone_clarity := d.standalone_clarity.getD 0
  segment_completeness := d.segment_completeness.getD 0
  optimal_duration := d.optimal_duration.getD 0

/-- `CuratedClipV2` dataclass from `curator_v2.py`. -/
structure CuratedClipV2 where
  start_time : ℚ
  end_time : ℚ
  title : String
  summary : String
  virality_score : ViralityScoreV2
  category : String
  suggested_hashtags : List String := []
  social_caption : String := ""
  caption_hashtags : List String := []
  pending_review : Bool := false
  review_reason : String := ""
  deriving DecidableEq, Repr

/-- `CuratedClipV2.duration` property: `end_time - start_time`. -/
def CuratedClipV2.duration (c : CuratedClipV2) : ℚ :=
  c.end_time - c.start_time

/-- `MultiAgentCurator._validate_clip_duration`: the duration classification,
returning the literal strings `'invalid'`, `'valid'` or `'pending'` (a
`'pending'` result is what sets the clip's `pending_review` flag, i.e. the
spec's "pending_review" outcome). -/
def validateClipDuration (start_time end_time : ℚ) (min_duration max_duration : Int)
    (virality_score : Int) : String :=
  let duration := end_time - start_time
  if duration < (min_duration : ℚ) * (1 / 2) then "invalid"
  else if duration > 180 then "invalid"
  else if (min_duration : ℚ) ≤ duration ∧ duration ≤ (max_duration : ℚ) then "valid"
  else if duration > (max_duration : ℚ) then "pending"
  else if duration < (min_duration : ℚ) ∧ virality_score ≥ 50 then "pending"
  else "invalid"

/-- **C1.** Duration classification is a pure function of
(duration, minDuration, maxDuration, score) checking, in order:
duration < 0.5·minDuration → invalid; duration > 180 → invalid;
minDuration ≤ duration ≤ maxDuration → valid; duration > maxDuration →
pending review; duration < minDuration with score ≥ 50 → pending review;
duration < minDuration with score < 50 → invalid.  The four table rows of
§4.3 evaluate as stated (with the source's `'pending'` string realising the
pending_review outcome). -/
theorem c1_duration_classification
    (s e : ℚ) (mn mx sc : Int) (d : ℚ) (hd : d = e - s) :
    (d < (mn : ℚ) / 2 → validateClipDuration s e mn mx sc = "invalid")
    ∧ (¬ d < (mn : ℚ) / 2 → d > 180 → validateClipDuration s e mn mx sc = "invalid")
    ∧ ((mn : ℚ) ≤ d → d ≤ (mx : ℚ) → ¬ d < (mn : ℚ) / 2 → ¬ d > 180 →
        validateClipDuration s e mn mx sc = "valid")
    ∧ (¬ d < (mn : ℚ) / 2 → ¬ d > 180 → d > (mx : ℚ) →
        validateClipDuration s e mn mx sc = "pending")
    ∧ (mn ≤ mx → ¬ d < (mn : ℚ) / 2 → ¬ d > 180 → d < (mn : ℚ) → sc ≥ 50 →
        validateClipDuration s e mn mx sc = "pending")
    ∧ (mn ≤ mx → ¬ d < (mn : ℚ) / 2 → ¬ d > 180 → d < (mn : ℚ) → sc < 50 →
        validateClipDuration s e mn mx sc = "invalid")
    ∧ validateClipDuration 0 10 30 90 0 = "invalid"
    ∧ validateClipDuration 0 95 30 90 0 = "pending"
    ∧ validateClipDuration 0 20 30 90 60 = "pending"
    ∧ validateClipDuration 0 20 30 90 10 = "invalid" := by
  subst hd
  refine ⟨?_, ?_, ?_, ?_, ?_, ?_, by norm_num [validateClipDuration],
    by norm_num [validateClipDuration], by norm_num [validateClipDuration],
    by norm_num [validateClipDuration]⟩
  · intro h
    simp only [validateClipDuration]
    rw [if_pos (by linarith)]
  · intro h1 h2
    simp only [validateClipDuration]
    rw [if_neg (by linarith), if_pos h2]
  · intro hlo hhi h1 h2
    simp only [validateClipDuration]
    rw [if_neg (by linarith), if_neg h2, if_pos ⟨hlo, hhi⟩]
  · intro h1 h2 h3
    have hnot : ¬ ((mn : ℚ) ≤ e - s ∧ e - s ≤ (mx : ℚ)) := by
      rintro ⟨-, hb⟩; linarith
    simp only [validateClipDuration]
    rw [if_neg (by linarith), if_neg h2, if_neg hnot, if_pos h3]
  · intro hmm h1 h2 h3 h4
    have hcast : (mn : ℚ) ≤ (mx : ℚ) := by exact_mod_cast hmm
    have hnot : ¬ ((mn : ℚ) ≤ e - s ∧ e - s ≤ (mx : ℚ)) := by
      rintro ⟨ha, -⟩; linarith
    simp only [validateClipDuration]
    rw [if_neg (by linarith), if_neg h2, if_neg hnot, if_neg (by linarith),
      if_pos ⟨h3, h4⟩]
  · intro hmm h1 h2 h3 h4
    have hcast : (mn : ℚ) ≤ (mx : ℚ) := by exact_mod_cast hmm
    have hnot : ¬ ((mn : ℚ) ≤ e - s ∧ e - s ≤ (mx : ℚ)) := by
      rintro ⟨ha, -⟩; linarith
    have hnot2 : ¬ ((e - s) < (mn : ℚ) ∧ sc ≥ 50) := by
      rintro ⟨-, hb⟩; omega
    simp only [validateClipDuration]
    rw [if_neg (by linarith), if_neg h2, if_neg hnot, if_neg (by linarith),
      if_neg hnot2]

/-- Witness for C1 at concrete inputs: duration 95 with maxDuration 90 is
classified pending review. -/
theorem c1_duration_classification_witness :
    validateClipDuration 0 95 30 90 0 = "pending" := by
  have h := c1_duration_classification 0 95 30 90 0 95 (by norm_num)
  exact h.2.2.2.1 (by norm_num) (by norm_num) (by norm_num)

/-! ## Cross-chunk deduplication (`_deduplicate_clips`) -/

/-- Ascending comparison on `start_time` (the key of the initial
`sorted(clips, key=lambda c: c.start_time)`). -/
def byStart (a b : CuratedClipV2) : Prop := a.start_time ≤ b.start_time

instance : DecidableRel byStart := fun a b =>
  inferInstanceAs (Decidable (a.start_time ≤ b.start_time))

instance : IsTotal CuratedClipV2 byStart :=
  ⟨fun a b => le_total a.start_time b.start_time⟩

instance : IsTrans CuratedClipV2 byStart := ⟨fun _ _ _ h1 h2 => le_trans h1 h2⟩

/-- Descending comparison on the virality total (the key of
`sort(key=lambda c: c.virality_score.total, reverse=True)`). -/
def descTotal (a b : CuratedClipV2) : Prop :=
  b.virality_score.total ≤ a.virality_score.total

instance : DecidableRel descTotal := fun a b =>
  inferInstanceAs (Decidable (b.virality_score.total ≤ a.virality_score.total))

instance : IsTotal CuratedClipV2 descTotal :=
  ⟨fun a b => le_total b.virality_score.total a.virality_score.total⟩

instance : IsTrans CuratedClipV2 descTotal := ⟨fun _ _ _ h1 h2 => le_trans h2 h1⟩

/-- The inner `for i, existing in enumerate(unique_clips)` loop of
`_deduplicate_clips`, scanning the kept clips for the first one whose overlap
with `clip` exceeds the threshold for either clip.  Returns `none` when no
duplicate is found, or `some` of the updated kept list (the higher-scoring
clip replacing `existing` in place when `clip` wins). -/
def dedupScanOne (threshold : ℚ) (clip : CuratedClipV2) :
    List CuratedClipV2 → Option (List CuratedClipV2)
  | [] => none
  | existing :: rest =>
    let overlap_start := max clip.start_time existing.start_time
    let overlap_end := min clip.end_time existing.end_time
    let overlap_duration := max 0 (overlap_end - overlap_start)
    let clip_overlap_ratio :=
      if clip.duration > 0 then overlap_duration / clip.duration else 0
    let existing_overlap_ratio :=
      if existing.duration > 0 then overlap_duration / existing.duration else 0
    if clip_overlap_ratio > threshold ∨ existing_overlap_ratio > threshold then
      some ((if clip.virality_score.total > existing.virality_score.total
             then clip else existing) :: rest)
    else
      (dedupScanOne threshold clip rest).map (existing :: ·)

/-- One iteration of the outer `for clip in sorted_clips` loop: either the
scan found a duplicate (and possibly replaced it) or `clip` is appended. -/
def dedupFold (threshold : ℚ) (unique : List CuratedClipV2)
    (clip : CuratedClipV2) : List CuratedClipV2 :=
  match dedupScanOne threshold clip unique with
  | some updated => updated
  | none => unique ++ [clip]

/-- `MultiAgentCurator._deduplicate_clips`: sort by start time (stably), then
scan once comparing each clip to the already-kept ones. -/
def deduplicateClips (clips : List CuratedClipV2) (threshold : ℚ) :
    List CuratedClipV2 :=
  if clips.length ≤ 1 then clips
  else (clips.insertionSort byStart).foldl (dedupFold threshold) []

/-- Fixture: a clip spanning `[s, e]` whose virality total is `sc`. -/
def exClip (s e : ℚ) (sc : Int) : CuratedClipV2 :=
  { start_time := s, end_time := e, title := "", summary := "",
    virality_score := { hook_strength := sc }, category := "" }

/-- **C2.** Deduplication sorts by start time and keeps a later clip only if
its overlap with every kept clip stays at or below 50% of both durations;
on a violation the pair collapses to the higher-scoring clip.  Stated as the
general two-clip law (for the sorted pair, with the code's ratio conditions)
plus the §8 examples: `[10,50]`/`[40,70]` (overlap 10s) both survive,
`[10,50]`/`[30,55]` (overlap 20s = 80% of the shorter) leaves only the
higher-scoring one, whichever of the two it is. -/
theorem c2_deduplication (c1 c2 : CuratedClipV2)
    (hsorted : c1.start_time ≤ c2.start_time) :
    (((if c2.duration > 0
        then max 0 (min c2.end_time c1.end_time - max c2.start_time c1.start_time)
          / c2.duration else 0) > 1 / 2 ∨
      (if c1.duration > 0
        then max 0 (min c2.end_time c1.end_time - max c2.start_time c1.start_time)
          / c1.duration else 0) > 1 / 2) →
      deduplicateClips [c1, c2] (1 / 2) =
        [if c2.virality_score.total > c1.virality_score.total then c2 else c1])
    ∧ (¬ ((if c2.duration > 0
        then max 0 (min c2.end_time c1.end_time - max c2.start_time c1.start_time)
          / c2.duration else 0) > 1 / 2 ∨
      (if c1.duration > 0
        then max 0 (min c2.end_time c1.end_time - max c2.start_time c1.start_time)
          / c1.duration else 0) > 1 / 2) →
      deduplicateClips [c1, c2] (1 / 2) = [c1, c2])
    ∧ deduplicateClips [exClip 10 50 60, exClip 40 70 80] (1 / 2) =
        [exClip 10 50 60, exClip 40 70 80]
    ∧ deduplicateClips [exClip 10 50 60, exClip 30 55 80] (1 / 2) =
        [exClip 30 55 80]
    ∧ deduplicateClips [exClip 10 50 80, exClip 30 55 60] (1 / 2) =
        [exClip 10 50 80] := by
  have key : ∀ a b : CuratedClipV2, a.start_time ≤ b.start_time →
      (((if b.duration > 0
          then max 0 (min b.end_time a.end_time - max b.start_time a.start_time)
            / b.duration else 0) > 1 / 2 ∨
        (if a.duration > 0
          then max 0 (min b.end_time a.end_time - max b.start_time a.start_time)
            / a.duration else 0) > 1 / 2) →
        deduplicateClips [a, b] (1 / 2) =
          [if b.virality_score.total > a.virality_score.total then b else a])
      ∧ (¬ ((if b.duration > 0
          then max 0 (min b.end_time a.end_time - max b.start_time a.start_time)
            / b.duration else 0) > 1 / 2 ∨
        (if a.duration > 0
          then max 0 (min b.end_time a.end_time - max b.start_time a.start_time)
            / a.duration else 0) > 1 / 2) →
        deduplicateClips [a, b] (1 / 2) = [a, b]) := by
    intro a b hab
    have hsort : [a, b].insertionSort byStart = [a, b] := by
      simp [List.insertionSort, List.orderedInsert, byStart, hab]
    constructor
    · intro hdup
      simp only [deduplicateClips, List.length_cons, List.length_nil]
      rw [if_neg (by omega), hsort]
      simp only [List.foldl, dedupFold, dedupScanOne]
      rw [if_pos hdup]
    · intro hdup
      simp only [deduplicateClips, List.length_cons, List.length_nil]
      rw [if_neg (by omega), hsort]
      simp only [List.foldl, dedupFold, dedupScanOne, Option.map_none']
      rw [if_neg hdup]
      rfl
  refine ⟨(key c1 c2 hsorted).1, (key c1 c2 hsorted).2, ?_, ?_, ?_⟩
  · have h := (key (exClip 10 50 60) (exClip 40 70 80) (by norm_num [exClip])).2
    rw [h]
    simp only [exClip, CuratedClipV2.duration]
    norm_num [min_def, max_def]
  · have h := (key (exClip 10 50 60) (exClip 30 55 80) (by norm_num [exClip])).1
    rw [h]
    · norm_num [exClip, ViralityScoreV2.total]
    · simp only [exClip, CuratedClipV2.duration]
      norm_num [min_def, max_def]
  · have h := (key (exClip 10 50 80) (exClip 30 55 60) (by norm_num [exClip])).1
    rw [h]
    · norm_num [exClip, ViralityScoreV2.total]
    · simp only [exClip, CuratedClipV2.duration]
      norm_num [min_def, max_def]

/-- Witness for C2: the kept-pair branch at the `[10,50]`/`[40,70]` example
(overlap ratios 1/4 and 1/3, both below 1/2). -/
theorem c2_deduplication_witness :
    deduplicateClips [exClip 10 50 60, exClip 40 70 80] (1 / 2) =
      [exClip 10 50 60, exClip 40 70 80] :=
  (c2_deduplication (exClip 10 50 60) (exClip 40 70 80)
    (by norm_num [exClip])).2.2.1

/-! ## JobStore (`job_store.py`)

The SQLite `jobs` table has `job_id` as PRIMARY KEY, so it is modelled as a
finite map `String → Option JobRecord`; each SQL `UPDATE ... WHERE job_id = ?`
becomes a guarded pointwise update, and the cursor's `rowcount > 0` becomes
the guard's truth value. -/

/-- One row of the `jobs` table / the `JobStatus` dataclass. -/
structure JobRecord where
  job_id : String
  episode_id : String
  status : String
  progress : Int
  message : String
  clips_generated : Int
  created_at : String
  updated_at : String
  error : Option String := none
  last_clip_index : Int := 0
  total_clips : Int := 0
  config_json : Option String := none
  deriving DecidableEq, Repr

/-- The persistent store: at most one row per `job_id` (PRIMARY KEY). -/
def JobDB := String → Option JobRecord

/-- `JobStore.get_job`. -/
def getJob (db : JobDB) (job_id : String) : Option JobRecord := db job_id

/-- `JobStore.create_job`: `INSERT OR REPLACE` of a fresh pending row —
an existing row under the same `job_id` is replaced wholesale.  Returns the
new store and the `JobStatus` value the Python method returns. -/
def createJob (db : JobDB) (job_id episode_id : String) (total_clips : Int)
    (config_json : Option String) (now : String) : JobDB × JobRecord :=
  let fresh : JobRecord :=
    { job_id := job_id, episode_id := episode_id, status := "pending",
      progress := 0, message := "Iniciando...", clips_generated := 0,
      created_at := now, updated_at := now, error := none,
      last_clip_index := 0, total_clips := total_clips,
      config_json := config_json }
  (Function.update db job_id (some fresh), fresh)

/-- The row rewrite performed by `update_progress`. -/
def progressedRecord (r : JobRecord) (progress : Int)
    (message status now : String) : JobRecord :=
  { r with progress := progress, message := message,
           status := status, updated_at := now }

/-- `JobStore.update_progress`: unconditional write of progress, message and
status (the `status` parameter defaults to `"processing"` in Python). -/
def updateProgress (db : JobDB) (job_id : String) (progress : Int)
    (message status now : String) : JobDB :=
  match db job_id with
  | none => db
  | some r => Function.update db job_id
      (some (progressedRecord r progress message status now))

/-- The row rewrite performed by `pause_job`. -/
def pausedRecord (r : JobRecord) (now : String) : JobRecord :=
  { r with status := "paused",
           message := "⏸️ Pausado - click Continuar para reanudar",
           updated_at := now }

/-- `JobStore.pause_job`: `UPDATE ... WHERE job_id = ? AND status =
'processing'`; the boolean is `rowcount > 0`. -/
def pauseJob (db : JobDB) (job_id now : String) : JobDB × Bool :=
  match db job_id with
  | none => (db, false)
  | some r =>
    if r.status = "processing" then
      (Function.update db job_id (some (pausedRecord r now)), true)
    else (db, false)

/-- The row rewrite performed by `resume_job`. -/
def resumedRecord (r : JobRecord) (now : String) : JobRecord :=
  { r with status := "resuming",
           message := "▶️ Reanudando...",
           updated_at := now }

/-- `JobStore.resume_job`: `UPDATE ... WHERE job_id = ? AND status =
'paused'`; the boolean is `rowcount > 0`. -/
def resumeJob (db : JobDB) (job_id now : String) : JobDB × Bool :=
  match db job_id with
  | none => (db, false)
  | some r =>
    if r.status = "paused" then
      (Function.update db job_id (some (resumedRecord r now)), true)
    else (db, false)

/-- **C8.** `pause_job` moves a job to `'paused'` and returns true exactly
when its current status is `'processing'`, and otherwise (wrong status, or
no such job) returns false leaving the store unchanged; `resume_job` moves a
job to `'resuming'` and returns true exactly when its current status is
`'paused'`, and otherwise returns false leaving the store unchanged. -/
theorem c8_pause_resume_guarded (db : JobDB) (job_id now : String) :
    (∀ r, getJob db job_id = some r → r.status = "processing" →
      (pauseJob db job_id now).2 = true ∧
      getJob (pauseJob db job_id now).1 job_id = some (pausedRecord r now))
    ∧ (∀ r, getJob db job_id = some r → r.status ≠ "processing" →
      (pauseJob db job_id now).2 = false ∧ (pauseJob db job_id now).1 = db)
    ∧ (getJob db job_id = none →
      (pauseJob db job_id now).2 = false ∧ (pauseJob db job_id now).1 = db)
    ∧ (∀ r, getJob db job_id = some r → r.status = "paused" →
      (resumeJob db job_id now).2 = true ∧
      getJob (resumeJob db job_id now).1 job_id = some (resumedRecord r now))
    ∧ (∀ r, getJob db job_id = some r → r.status ≠ "paused" →
      (resumeJob db job_id now).2 = false ∧ (resumeJob db job_id now).1 = db)
    ∧ (getJob db job_id = none →
      (resumeJob db job_id now).2 = false ∧ (resumeJob db job_id now).1 = db) := by
  refine ⟨?_, ?_, ?_, ?_, ?_, ?_⟩
  · intro r hr hs
    simp only [pauseJob, getJob] at *
    rw [hr]
    simp [hs, Function.update_same]
  · intro r hr hs
    simp only [pauseJob, getJob] at *
    rw [hr]
    simp [hs]
  · intro hr
    simp only [pauseJob, getJob] at *
    rw [hr]
    exact ⟨rfl, rfl⟩
  · intro r hr hs
    simp only [resumeJob, getJob] at *
    rw [hr]
    simp [hs, Function.update_same]
  · intro r hr hs
    simp only [resumeJob, getJob] at *
    rw [hr]
    simp [hs]
  · intro hr
    simp only [resumeJob, getJob] at *
    rw [hr]
    exact ⟨rfl, rfl⟩

/-- Witness for C8: pausing a freshly created job (status `'pending'`) is a
refused no-op. -/
theorem c8_pause_resume_guarded_witness :
    (pauseJob (createJob (fun _ => none) "job1" "EP097" 0 none "t0").1
      "job1" "t1").2 = false :=
  ((c8_pause_resume_guarded
    (createJob (fun _ => none) "job1" "EP097" 0 none "t0").1 "job1" "t1").2.1
    (createJob (fun _ => none) "job1" "EP097" 0 none "t0").2
    (by simp [createJob, getJob, Function.update_same]) (by simp [createJob])).1

/-- **C10.** `create_job` on an existing `job_id` does not fail: it replaces
the row, resetting status to `'pending'`, progress to 0, `clips_generated`
to 0 and `last_clip_index` to 0 — whatever pause/resume state the old row
carried is lost. -/
theorem c10_create_job_overwrites (db : JobDB) (job_id episode_id : String)
    (total_clips : Int) (config_json : Option String) (now : String)
    (r0 : JobRecord) (_hexists : getJob db job_id = some r0) :
    getJob (createJob db job_id episode_id total_clips config_json now).1 job_id
      = some (createJob db job_id episode_id total_clips config_json now).2
    ∧ (createJob db job_id episode_id total_clips config_json now).2.status
        = "pending"
    ∧ (createJob db job_id episode_id total_clips config_json now).2.progress = 0
    ∧ (createJob db job_id episode_id total_clips config_json now).2.clips_generated
        = 0
    ∧ (createJob db job_id episode_id total_clips config_json now).2.last_clip_index
        = 0 := by
  refine ⟨?_, rfl, rfl, rfl, rfl⟩
  simp [createJob, getJob, Function.update_same]

/-- Witness for C10: re-creating a job that was paused at clip 3 resets its
record to pending/0. -/
theorem c10_create_job_overwrites_witness :
    (getJob ((createJob
        (Function.update (fun _ => none) "j"
          (some { job_id := "j", episode_id := "EP1", status := "paused",
                  progress := 60, message := "m", clips_generated := 3,
                  created_at := "t0", updated_at := "t1",
                  last_clip_index := 3, total_clips := 5 }))
        "j" "EP1" 0 none "t2").1) "j").map JobRecord.status = some "pending" := by
  have h := c10_create_job_overwrites
    (Function.update (fun _ => none) "j"
      (some { job_id := "j", episode_id := "EP1", status := "paused",
              progress := 60, message := "m", clips_generated := 3,
              created_at := "t0", updated_at := "t1",
              last_clip_index := 3, total_clips := 5 }))
    "j" "EP1" 0 none "t2"
    { job_id := "j", episode_id := "EP1", status := "paused",
      progress := 60, message := "m", clips_generated := 3,
      created_at := "t0", updated_at := "t1",
      last_clip_index := 3, total_clips := 5 }
    (by simp [getJob, Function.update_same])
  rw [h.1, Option.map_some', h.2.1]

/-! ## Progress writes of `BatchProcessor.process_episode` (C7)

`process_episode` writes fixed stage percentages 25, 27, 29, 33, 35, then
hands `curation_progress` to the curator (first called with `current = 0`,
then with `i + 1` per chunk), then per clip writes `int(70 + (i/len)*30)`
followed by `update_clip_progress`'s `int((clip_index+1)/max(total,1)*100)`.
All the Python expressions are `int(...)` of a non-negative exact ratio, so
they are modelled with natural-number division (= the floor). -/

/-- `curation_progress(current, total, msg)` in `process_episode`:
`int(30 + (current / total) * 40)`. -/
def curationCallbackProgress (current total : ℕ) : Int :=
  30 + (current * 40) / total

/-- The clip-loop stage write in `process_episode`:
`int(70 + (i / len(valid_clips)) * 30)` for the 1-indexed clip `i`. -/
def clipLoopProgress (i total : ℕ) : Int :=
  70 + (i * 30) / total

/-- `JobStore.update_clip_progress`'s stored percentage:
`int((clip_index + 1) / max(total, 1) * 100)`. -/
def updateClipProgressValue (clip_index total : ℕ) : Int :=
  ((clip_index + 1) * 100) / (max total 1)

/-- The sequence of progress values `process_episode` writes to the store
while the job stays in status `'processing'`, for a run with `numChunks`
curation chunks and `numClips` clips processed (fresh curation, no cached
artifacts, no pause): the five stage writes, the curation callback writes
(lines 646 and 658 of `curator_v2.py` via the callback defined at line 217
of `batch_processor.py`), and the two per-clip writes. -/
def processEpisodeProgressTrace (numChunks numClips : ℕ) : List Int :=
  [25, 27, 29, 33, 35]
    ++ (curationCallbackProgress 0 numChunks
        :: (List.range numChunks).map
            (fun i => curationCallbackProgress (i + 1) numChunks))
    ++ (List.range numClips).flatMap
        (fun j => [clipLoopProgress (j + 1) numClips,
                   updateClipProgressValue (j + 1) numClips])

/-- **C7** fails on the code: in a run with 3 curation chunks and 2 clips
the orchestrator writes progress 35 ("Iniciando curación...") and then the
first curation callback writes `int(30 + 0) = 30`, a strictly smaller value,
while the job status stays `'processing'` (and the final
`update_clip_progress` write is 150, outside [0,100]).  Replaying the two
writes through `update_progress` shows the stored progress drop from 35 to
30 with status `'processing'` both times. -/
theorem c7_progress_not_monotone :
    processEpisodeProgressTrace 3 2 =
      [25, 27, 29, 33, 35, 30, 43, 56, 70, 85, 100, 100, 150]
    ∧ ¬ List.Chain' (· ≤ ·) (processEpisodeProgressTrace 3 2)
    ∧ (let db0 := (createJob (fun _ => none) "j" "EP097" 0 none "t0").1
       let db1 := updateProgress db0 "j" 35 "Iniciando curación..."
         "processing" "t1"
       let db2 := updateProgress db1 "j" 30 "Curation: Initializing"
         "processing" "t2"
       (getJob db1 "j").map JobRecord.progress = some 35
       ∧ (getJob db1 "j").map JobRecord.status = some "processing"
       ∧ (getJob db2 "j").map JobRecord.progress = some 30
       ∧ (getJob db2 "j").map JobRecord.status = some "processing") := by
  have htr : processEpisodeProgressTrace 3 2 =
      [25, 27, 29, 33, 35, 30, 43, 56, 70, 85, 100, 100, 150] := by decide
  refine ⟨htr, ?_, ?_, ?_, ?_, ?_⟩
  · rw [htr]
    norm_num [List.chain'_cons]
  all_goals
    simp [createJob, updateProgress, progressedRecord, getJob,
      Function.update_same]

/-! ## Parsing ranked clips into `CuratedClipV2` (lines 727–788 / 911–972 of
`curator_v2.py`) -/

/-- Model of Python's `f"{q:.1f}"` for the non-negative tenth-exact values
this development evaluates it on (rounding differences at other values do not
affect any claim: the formatted string's content only feeds `review_reason`
and the chunker's character counts). -/
def fmt1 (q : ℚ) : String :=
  let tenths : Int := ⌊q * 10 + 1 / 2⌋
  toString (tenths / 10) ++ "." ++ toString (tenths % 10).natAbs

/-- Python's `pattern in s` for non-empty `pattern`. -/
def strContains (s pattern : String) : Bool :=
  (s.splitOn pattern).length ≠ 1

/-- Write the caption fields of a clip (used by `_generate_captions`). -/
def withCaption (c : CuratedClipV2) (cap : String) (tags : List String) :
    CuratedClipV2 :=
  { c with social_caption := cap, caption_hashtags := tags }

/-- Replace the `optimal_duration` sub-score of a clip's virality score. -/
def withOptimalDuration (c : CuratedClipV2) (v : Int) : CuratedClipV2 :=
  { c with virality_score := { c.virality_score with optimal_duration := v } }

/-- `MultiAgentCurator._apply_performance_bonus`: deterministic nudge of the
`optimal_duration` sub-score (re-clamped to [0,10]) from the duration bucket,
category keywords, and topic keywords. -/
def applyPerformanceBonus (clip : CuratedClipV2) : CuratedClipV2 :=
  let durBonus : Int :=
    if 30 ≤ clip.duration ∧ clip.duration ≤ 40 then 5
    else if 40 < clip.duration ∧ clip.duration ≤ 60 then 3
    else if 25 ≤ clip.duration ∧ clip.duration < 30 then 2
    else if 60 < clip.duration ∧ clip.duration ≤ 90 then 0
    else if clip.duration > 90 then -3
    else 0
  let category_lower := clip.category.toLower
  let catBonus : Int :=
    if strContains category_lower "emotional" then 4
    else if strContains category_lower "story" then 4
    else if strContains category_lower "insight" then 1
    else 0
  let combined_text := clip.title.toLower ++ " " ++ clip.summary.toLower
  let careerBonus : Int :=
    if ["carrera", "equivoqué", "trabajo", "profesión",
        "cambiar de rumbo"].any (strContains combined_text) then 3 else 0
  let nostalgiaBonus : Int :=
    if ["niño", "infancia", "cuando era pequeño", "nostalgia",
        "interior"].any (strContains combined_text) then 2 else 0
  let legacyBonus : Int :=
    if ["recordar", "legado", "propósito",
        "sentido de vida"].any (strContains combined_text) then 2 else 0
  let bonus := durBonus + catBonus + careerBonus + nostalgiaBonus + legacyBonus
  withOptimalDuration clip
    (max 0 (min 10 (clip.virality_score.optimal_duration + bonus)))

/-- `MultiAgentCurator._sanitize_timestamp`: `none` models a value `float()`
rejects; a parsed value is discarded outside [0, transcript.duration]
(`math.isfinite` always holds on `ℚ`). -/
def sanitizeTimestamp (value : Option ℚ) (max_duration : ℚ) : Option ℚ :=
  match value with
  | none => none
  | some ts => if ts < 0 ∨ ts > max_duration then none else some ts

/-- One parsed entry of the Ranker's `ranked_clips` JSON array; `none`
fields model missing keys. -/
structure ClipData where
  start_time : Option ℚ := none
  end_time : Option ℚ := none
  title : Option String := none
  summary : Option String := none
  category : Option String := none
  suggested_hashtags : Option (List String) := none
  virality_score : ScoreData := {}
  deriving DecidableEq, Repr

/-- The `review_reason` string set for a `'pending'` clip. -/
def mkReviewReason (dur : ℚ) (mn mx : Int) : String :=
  "Duration " ++ fmt1 dur ++ "s outside " ++ toString mn ++ "-"
    ++ toString mx ++ "s range"

/-- Mark a clip for manual review. -/
def pendingMark (c : CuratedClipV2) (mn mx : Int) : CuratedClipV2 :=
  { c with pending_review := true,
           review_reason := mkReviewReason c.duration mn mx }

/-- The per-candidate body of the clip-parsing loop in
`curate_chunked` / `curate`: sanitize timestamps, build the score via
`.get(key, 0)`, construct the clip, validate the duration (dropping
`'invalid'`, marking `'pending'`), then apply the performance bonus.
Returns `none` when the candidate is skipped. -/
def buildClip (transcript_duration : ℚ) (min_d max_d : Int) (d : ClipData) :
    Option CuratedClipV2 :=
  match sanitizeTimestamp d.start_time transcript_duration,
        sanitizeTimestamp d.end_time transcript_duration with
  | some s, some e =>
    if e ≤ s then none
    else
      let score := scoreFromData d.virality_score
      let clip : CuratedClipV2 :=
        { start_time := s, end_time := e, title := d.title.getD "Untitled",
          summary := d.summary.getD "", virality_score := score,
          category := d.category.getD "insight",
          suggested_hashtags := d.suggested_hashtags.getD [] }
      let status := validateClipDuration s e min_d max_d score.total
      if status = "invalid" then none
      else if status = "pending" then
        some (applyPerformanceBonus (pendingMark clip min_d max_d))
      else some (applyPerformanceBonus clip)
  | _, _ => none

/-- The clips one chunk contributes to `all_clips` in `curate_chunked`. -/
def chunkSurvivors (tdur : ℚ) (min_d max_d : Int) (ranked : List ClipData) :
    List CuratedClipV2 :=
  ranked.filterMap (buildClip tdur min_d max_d)

/-! ## Caption generation (`_generate_captions`) -/

/-- The `if data:` block of `_generate_captions`: a falsy (empty) parsed
dictionary leaves the clip untouched; otherwise `data.get("caption", "")`
and `data.get("hashtags", [])` are written. -/
def applyCaption (r : Option (String × List String)) (c : CuratedClipV2) :
    CuratedClipV2 :=
  match r with
  | none => c
  | some rc => withCaption c rc.1 rc.2

/-- `MultiAgentCurator._generate_captions`: one strictly sequential
generation call per clip.  `call i` is the outcome of the `_call_agent`
invocation for clip `i` combined with `_parse_json`: `Except.error` models
the `RuntimeError` escaping after all retries (which propagates out of the
loop), `Except.ok none` a response whose JSON could not be parsed (falsy
`{}`), and `Except.ok (some (caption, hashtags))` a parsed response. -/
def generateCaptions
    (call : ℕ → Except Unit (Option (String × List String))) :
    ℕ → List CuratedClipV2 → Except Unit (List CuratedClipV2)
  | _, [] => Except.ok []
  | i, c :: rest =>
    match call i with
    | Except.error e => Except.error e
    | Except.ok r =>
      match generateCaptions call (i + 1) rest with
      | Except.error e => Except.error e
      | Except.ok rest2 => Except.ok (applyCaption r c :: rest2)

/-! ## The curation entry points (post-ranking core) -/

/-- `display_clips = all_clips[:top_n]` when `top_n` is a positive number,
otherwise the whole list ("FIX: If top_n is None or 0, return ALL valid
clips"). -/
def displayCount (top_n : Option ℕ) (len : ℕ) : ℕ :=
  match top_n with
  | some n => if 0 < n then n else len
  | none => len

/-- The deterministic core of `MultiAgentCurator.curate` after the Ranker
responded: parse/validate/bonus each ranked candidate, sort by total score
descending (stably, like `list.sort(reverse=True)`), generate captions for
the `display_clips` slice when `episode_number > 0` (in Python the slice
aliases the full list, so the captioned objects are the first
`displayCount` entries of the returned list), and return the FULL list. -/
def curateCore (tdur : ℚ) (ranked : List ClipData) (top_n : Option ℕ)
    (min_d max_d : Int) (episode_number : ℕ)
    (captionCall : ℕ → Except Unit (Option (String × List String))) :
    Except Unit (List CuratedClipV2) :=
  let clips :=
    (ranked.filterMap (buildClip tdur min_d max_d)).insertionSort descTotal
  let k := displayCount top_n clips.length
  if 0 < episode_number then
    match generateCaptions captionCall 0 (clips.take k) with
    | Except.error e => Except.error e
    | Except.ok capped => Except.ok (capped ++ clips.drop k)
  else Except.ok clips

/-- The deterministic core of `MultiAgentCurator.curate_chunked` after all
chunks' Rankers responded (no pause): collect each chunk's survivors,
deduplicate across chunks with the 0.5 overlap threshold, sort by total
score descending, caption the display slice, return the FULL list. -/
def curateChunkedCore (tdur : ℚ) (chunksRanked : List (List ClipData))
    (top_n : Option ℕ) (min_d max_d : Int) (episode_number : ℕ)
    (captionCall : ℕ → Except Unit (Option (String × List String))) :
    Except Unit (List CuratedClipV2) :=
  let all0 := (chunksRanked.map (chunkSurvivors tdur min_d max_d)).flatten
  let sorted := (deduplicateClips all0 (1 / 2)).insertionSort descTotal
  let k := displayCount top_n sorted.length
  if 0 < episode_number then
    match generateCaptions captionCall 0 (sorted.take k) with
    | Except.error e => Except.error e
    | Except.ok capped => Except.ok (capped ++ sorted.drop k)
  else Except.ok sorted

/-- Erase the two caption fields (the only fields `_generate_captions`
writes). -/
def stripCaption (c : CuratedClipV2) : CuratedClipV2 :=
  { c with social_caption := "", caption_hashtags := [] }

/-- **C4** fails on the code: the curator builds scores straight from the
parsed generation output with `score_data.get(key, 0)` and never clamps
them, so the construction at lines 744–755 of `curator_v2.py` applied to a
parsed `{"hook_strength": 500}` yields a `ViralityScoreV2` whose total is
500, outside [0,100]. -/
theorem c4_virality_total_counterexample :
    (scoreFromData { hook_strength := some 500 }).total = 500
    ∧ ¬ (scoreFromData { hook_strength := some 500 }).total ≤ 100 := by
  decide

/-- **C4 (amended).** `total` always equals the literal sum of the ten
sub-scores (it is computed, never stored), and it lies in [0,100] whenever
every sub-score lies in [0,10]; the code does not clamp parsed sub-scores,
so scores outside that range produce totals outside [0,100]. -/
theorem c4_virality_total_sum_and_conditional_range (v : ViralityScoreV2) :
    v.total = v.hook_strength + v.quotability + v.storytelling +
      v.controversy + v.energy_level + v.pacing + v.emotional_arc +
      v.standalone_clarity + v.segment_completeness + v.optimal_duration
    ∧ ((0 ≤ v.hook_strength ∧ v.hook_strength ≤ 10)
        ∧ (0 ≤ v.quotability ∧ v.quotability ≤ 10)
        ∧ (0 ≤ v.storytelling ∧ v.storytelling ≤ 10)
        ∧ (0 ≤ v.controversy ∧ v.controversy ≤ 10)
        ∧ (0 ≤ v.energy_level ∧ v.energy_level ≤ 10)
        ∧ (0 ≤ v.pacing ∧ v.pacing ≤ 10)
        ∧ (0 ≤ v.emotional_arc ∧ v.emotional_arc ≤ 10)
        ∧ (0 ≤ v.standalone_clarity ∧ v.standalone_clarity ≤ 10)
        ∧ (0 ≤ v.segment_completeness ∧ v.segment_completeness ≤ 10)
        ∧ (0 ≤ v.optimal_duration ∧ v.optimal_duration ≤ 10) →
        0 ≤ v.total ∧ v.total ≤ 100) := by
  refine ⟨rfl, ?_⟩
  intro h
  obtain ⟨h1, h2, h3, h4, h5, h6, h7, h8, h9, h10⟩ := h
  unfold ViralityScoreV2.total
  omega

/-- Witness for C4 (amended): the all-zero score has total 0 ∈ [0,100]. -/
theorem c4_virality_total_sum_witness :
    0 ≤ (ViralityScoreV2.mk 0 0 0 0 0 0 0 0 0 0).total
    ∧ (ViralityScoreV2.mk 0 0 0 0 0 0 0 0 0 0).total ≤ 100 :=
  (c4_virality_total_sum_and_conditional_range
    (ViralityScoreV2.mk 0 0 0 0 0 0 0 0 0 0)).2 (by decide)

/-- **C6** fails on the code: `_generate_captions` wraps no `try` around
`_call_agent`, so when the generation call for the first clip exhausts its
retries and raises, the whole caption stage (and with it the curation run)
aborts instead of leaving that clip's caption fields empty and moving on —
no clip list is returned at all. -/
theorem c6_caption_failure_counterexample :
    generateCaptions
      (fun i => if i = 0 then Except.error ()
                else Except.ok (some ("hola", [])))
      0 [exClip 0 30 10, exClip 40 70 20] = Except.error ()
    ∧ generateCaptions
      (fun i => if i = 0 then Except.error ()
                else Except.ok (some ("hola", [])))
      0 [exClip 0 30 10, exClip 40 70 20]
        ≠ Except.ok [exClip 0 30 10, exClip 40 70 20] := by
  constructor <;> simp [generateCaptions]

/-- **C6 (amended).** During caption generation, a call whose response fails
to parse (the falsy `{}` from `_parse_json`) leaves that clip's
`social_caption` and `caption_hashtags` unchanged (i.e. empty) and the
remaining clips are still processed; more generally, whenever no call
raises, every clip survives with only its caption fields possibly changed.
But a call that raises (retry exhaustion in `_call_agent`) propagates and
aborts the processing of that clip and all remaining ones. -/
theorem c6_caption_behaviour :
    (∀ (clips : List CuratedClipV2)
       (call : ℕ → Except Unit (Option (String × List String))) (k : ℕ),
       (∀ i, call i = Except.ok none) →
       generateCaptions call k clips = Except.ok clips)
    ∧ (∀ (clips : List CuratedClipV2)
       (call : ℕ → Except Unit (Option (String × List String))) (k : ℕ),
       (∀ i, (call i).isOk = true) →
       ∃ out, generateCaptions call k clips = Except.ok out ∧
         out.map stripCaption = clips.map stripCaption)
    ∧ (∀ (c : CuratedClipV2) (rest : List CuratedClipV2)
       (call : ℕ → Except Unit (Option (String × List String))) (k : ℕ),
       call k = Except.error () →
       generateCaptions call k (c :: rest) = Except.error ()) := by
  refine ⟨?_, ?_, ?_⟩
  · intro clips call
    induction clips with
    | nil => intro k _; rfl
    | cons c rest ih =>
      intro k h
      simp only [generateCaptions, h k, ih (k + 1) h, applyCaption]
  · intro clips call
    induction clips with
    | nil => intro k _; exact ⟨[], rfl, rfl⟩
    | cons c rest ih =>
      intro k h
      obtain ⟨r, hr⟩ : ∃ r, call k = Except.ok r := by
        cases hc : call k with
        | error e => exact absurd (h k) (by simp [hc, Except.isOk, Except.toBool])
        | ok r => exact ⟨r, rfl⟩
      obtain ⟨out, hout, hstrip⟩ := ih (k + 1) h
      refine ⟨applyCaption r c :: out, ?_, ?_⟩
      · simp only [generateCaptions, hr, hout]
      · simp only [List.map_cons, hstrip]
        cases r with
        | none => rfl
        | some rc => rfl
  · intro c rest call k h
    simp only [generateCaptions, h]

/-- Witness for C6 (amended): two clips whose caption responses both fail to
parse are returned unchanged. -/
theorem c6_caption_behaviour_witness :
    generateCaptions (fun _ => Except.ok none) 0
      [exClip 0 30 10, exClip 40 70 20] =
      Except.ok [exClip 0 30 10, exClip 40 70 20] :=
  c6_caption_behaviour.1 [exClip 0 30 10, exClip 40 70 20]
    (fun _ => Except.ok none) 0 (fun _ => rfl)

/-! ## Orchestrator score-threshold filtering (`process_episode`, C9) -/

/-- Lines 255–265 of `batch_processor.py`: keep the curated clips with
`c.virality_score.total >= self.min_score`, then sort by score descending
(stably) — the single filtering site between curation and extraction. -/
def filterValidClips (curated : List CuratedClipV2) (min_score : Int) :
    List CuratedClipV2 :=
  (curated.filter
    (fun c => decide (min_score ≤ c.virality_score.total))).insertionSort
    descTotal

/-- **C9.** The orchestrator's score gate keeps exactly the curated clips at
or above the caller-supplied minimum score (it is a permutation of the
filtered list: no clip below the threshold survives, every clip at or above
it does), and the kept clips are sorted by total score descending to fix the
processing order. -/
theorem c9_score_threshold_filter (curated : List CuratedClipV2)
    (min_score : Int) :
    (filterValidClips curated min_score).Perm
      (curated.filter (fun c => decide (min_score ≤ c.virality_score.total)))
    ∧ List.Sorted descTotal (filterValidClips curated min_score)
    ∧ (∀ c ∈ filterValidClips curated min_score,
        min_score ≤ c.virality_score.total)
    ∧ (∀ c ∈ curated, min_score ≤ c.virality_score.total →
        c ∈ filterValidClips curated min_score) := by
  refine ⟨List.perm_insertionSort descTotal _,
    List.sorted_insertionSort descTotal _, ?_, ?_⟩
  · intro c hc
    have hmem := (List.perm_insertionSort descTotal
      (curated.filter
        (fun c => decide (min_score ≤ c.virality_score.total)))).mem_iff.mp hc
    have := List.of_mem_filter hmem
    simpa using this
  · intro c hc hsc
    apply (List.perm_insertionSort descTotal
      (curated.filter
        (fun c => decide (min_score ≤ c.virality_score.total)))).mem_iff.mpr
    exact List.mem_filter.mpr ⟨hc, by simpa using hsc⟩

/-- Witness for C9: a clip with score 80 passes the threshold-70 gate. -/
theorem c9_score_threshold_filter_witness :
    exClip 0 30 80 ∈ filterValidClips [exClip 0 30 80, exClip 40 70 50] 70 :=
  (c9_score_threshold_filter [exClip 0 30 80, exClip 40 70 50] 70).2.2.2
    (exClip 0 30 80) (by simp) (by decide)

/-! ## C5: both entry points return the full sorted survivor set -/

/-- Stripping captions commutes with the per-clip caption application. -/
theorem stripCaption_applyCaption (r : Option (String × List String))
    (c : CuratedClipV2) :
    stripCaption (applyCaption r c) = stripCaption c := by
  cases r <;> rfl

/-- A successful caption pass only changes caption fields. -/
theorem generateCaptions_ok_map_strip
    (call : ℕ → Except Unit (Option (String × List String))) :
    ∀ (clips : List CuratedClipV2) (k : ℕ) (out : List CuratedClipV2),
      generateCaptions call k clips = Except.ok out →
      out.map stripCaption = clips.map stripCaption := by
  intro clips
  induction clips with
  | nil =>
    intro k out h
    simp only [generateCaptions] at h
    cases h
    rfl
  | cons c rest ih =>
    intro k out h
    simp only [generateCaptions] at h
    cases hc : call k with
    | error e => rw [hc] at h; cases h
    | ok r =>
      rw [hc] at h
      cases hrest : generateCaptions call (k + 1) rest with
      | error e => rw [hrest] at h; cases h
      | ok rest2 =>
        rw [hrest] at h
        cases h
        simp only [List.map_cons, stripCaption_applyCaption, ih _ _ hrest]

/-- Pairwise-descending totals transfer across caption-stripping equality. -/
theorem pairwise_descTotal_of_map_strip_eq
    {l1 l2 : List CuratedClipV2}
    (h : l1.map stripCaption = l2.map stripCaption)
    (hp : List.Pairwise descTotal l2) : List.Pairwise descTotal l1 := by
  have h2 : List.Pairwise descTotal (l2.map stripCaption) := by
    rw [List.pairwise_map]
    exact hp.imp (fun hab => hab)
  rw [← h, List.pairwise_map] at h2
  exact h2.imp (fun hab => hab)

/-- **C5.** Whenever a curation entry point returns (captions not raising),
the returned list is the FULL validated survivor set — for the chunked path
the deduplicated union of all chunks' survivors, for the single-pass path
the survivors of the ranked list — sorted by total virality score
descending, with only caption fields possibly rewritten; in particular its
content (up to captions) is the same for every requested display count
`top_n`, never truncated. -/
theorem c5_full_set_returned (tdur : ℚ) (chunks : List (List ClipData))
    (ranked : List ClipData) (top_n : Option ℕ) (min_d max_d : Int)
    (ep : ℕ) (call : ℕ → Except Unit (Option (String × List String))) :
    (∀ res, curateChunkedCore tdur chunks top_n min_d max_d ep call =
        Except.ok res →
      res.map stripCaption =
        ((deduplicateClips
            ((chunks.map (chunkSurvivors tdur min_d max_d)).flatten)
            (1 / 2)).insertionSort descTotal).map stripCaption
      ∧ List.Pairwise descTotal res)
    ∧ (∀ res, curateCore tdur ranked top_n min_d max_d ep call =
        Except.ok res →
      res.map stripCaption =
        ((ranked.filterMap
            (buildClip tdur min_d max_d)).insertionSort descTotal).map
          stripCaption
      ∧ List.Pairwise descTotal res) := by
  constructor
  · intro res h
    simp only [curateChunkedCore] at h
    set sorted := (deduplicateClips
      ((chunks.map (chunkSurvivors tdur min_d max_d)).flatten)
      (1 / 2)).insertionSort descTotal with hsorted
    have hsort : List.Pairwise descTotal sorted :=
      List.sorted_insertionSort descTotal _
    by_cases hep : 0 < ep
    · rw [if_pos hep] at h
      cases hcap : generateCaptions call 0
          (sorted.take (displayCount top_n sorted.length)) with
      | error e => rw [hcap] at h; cases h
      | ok capped =>
        rw [hcap] at h
        cases h
        have hmap := generateCaptions_ok_map_strip call _ _ _ hcap
        have heq : (capped ++
            sorted.drop (displayCount top_n sorted.length)).map stripCaption
            = sorted.map stripCaption := by
          rw [List.map_append, hmap, ← List.map_append,
            List.take_append_drop]
        exact ⟨heq, pairwise_descTotal_of_map_strip_eq heq hsort⟩
    · rw [if_neg hep] at h
      simp only [Except.ok.injEq] at h
      subst h
      exact ⟨rfl, hsort⟩
  · intro res h
    simp only [curateCore] at h
    set sorted := (ranked.filterMap
      (buildClip tdur min_d max_d)).insertionSort descTotal with hsorted
    have hsort : List.Pairwise descTotal sorted :=
      List.sorted_insertionSort descTotal _
    by_cases hep : 0 < ep
    · rw [if_pos hep] at h
      cases hcap : generateCaptions call 0
          (sorted.take (displayCount top_n sorted.length)) with
      | error e => rw [hcap] at h; cases h
      | ok capped =>
        rw [hcap] at h
        cases h
        have hmap := generateCaptions_ok_map_strip call _ _ _ hcap
        have heq : (capped ++
            sorted.drop (displayCount top_n sorted.length)).map stripCaption
            = sorted.map stripCaption := by
          rw [List.map_append, hmap, ← List.map_append,
            List.take_append_drop]
        exact ⟨heq, pairwise_descTotal_of_map_strip_eq heq hsort⟩
    · rw [if_neg hep] at h
      simp only [Except.ok.injEq] at h
      subst h
      exact ⟨rfl, hsort⟩

/-- Witness for C5: the chunked entry point on an empty chunk list with
`top_n = 3` returns the (empty) full survivor set. -/
theorem c5_full_set_returned_witness :
    ([] : List CuratedClipV2).map stripCaption =
      ((deduplicateClips
          ((([] : List (List ClipData)).map (chunkSurvivors 100 25 90)).flatten)
          (1 / 2)).insertionSort descTotal).map stripCaption :=
  ((c5_full_set_returned 100 [] [] (some 3) 25 90 0
    (fun _ => Except.ok none)).1 [] rfl).1

/-! ## TranscriptChunker (`_chunk_transcript`, C3)

A chunk is modelled by its list of segments (the `Transcript` wrapper built
around each chunk carries `language`/`duration`/`source_file` metadata that
plays no role in the chunking claims).  Only the `text`/`start`/`end` fields
of a segment are consulted by the chunker, so `Segment` carries those
(`end` is a Lean keyword, rendered `stop`). -/

/-- A transcript segment as consumed by the chunker. -/
structure Segment where
  text : String
  start : ℚ
  stop : ℚ
  deriving DecidableEq, Repr

/-- `f"[{seg.start:.1f}s - {seg.end:.1f}s] {seg.text}"`, whose length is the
`seg_chars` budget charge of a segment. -/
def segFormatted (s : Segment) : String :=
  "[" ++ fmt1 s.start ++ "s - " ++ fmt1 s.stop ++ "s] " ++ s.text

/-- The overlap tail computed at a chunk boundary: the segments of the
closing chunk starting within `overlap_seconds` of its last segment's end
(`overlap_start_time = current_segments[-1].end - overlap_seconds`;
`[s for s in current_segments if s.start >= overlap_start_time]`).  For the
empty list (never hit by the code, which guards `current_segments`) it is
empty. -/
def overlapOf (overlap_seconds : ℚ) (c : List Segment) : List Segment :=
  match c.getLast? with
  | none => []
  | some lastSeg =>
    c.filter (fun s => decide (lastSeg.stop - overlap_seconds ≤ s.start))

/-- The segment loop of `_chunk_transcript`.  State: emitted chunks, the
segments of the chunk being built, and its character count.  When adding the
next segment would overflow `max_chars` (and the current chunk is
non-empty), the current chunk is emitted and the next chunk starts from its
overlap tail; the incoming segment is appended in both branches (the Python
appends it right after the `if`). -/
def chunkLoop (max_chars : ℕ) (os : ℚ) :
    List Segment → List (List Segment) → List Segment → ℕ →
    List (List Segment)
  | [], chunks, current, _ =>
    if current = [] then chunks else chunks ++ [current]
  | seg :: rest, chunks, current, current_chars =>
    let seg_chars := (segFormatted seg).length
    if max_chars < current_chars + seg_chars ∧ current ≠ [] then
      chunkLoop max_chars os rest (chunks ++ [current])
        (overlapOf os current ++ [seg])
        (((overlapOf os current).map
          (fun s => (segFormatted s).length)).sum + seg_chars)
    else
      chunkLoop max_chars os rest chunks (current ++ [seg])
        (current_chars + seg_chars)

/-- `MultiAgentCurator._chunk_transcript` on a transcript's segment list. -/
def chunkTranscript (segments : List Segment) (max_chars : ℕ) (os : ℚ) :
    List (List Segment) :=
  chunkLoop max_chars os segments [] [] 0

/-- The already-emitted chunks are a prefix of the final chunk list. -/
theorem chunkLoop_emits_monotonically (mc : ℕ) (os : ℚ) :
    ∀ (l : List Segment) (chunks : List (List Segment))
      (current : List Segment) (cchars : ℕ),
      chunks <+: chunkLoop mc os l chunks current cchars := by
  intro l
  induction l with
  | nil =>
    intro chunks current cchars
    simp only [chunkLoop]
    split
    · exact List.prefix_refl _
    · exact List.prefix_append _ _
  | cons seg rest ih =>
    intro chunks current cchars
    simp only [chunkLoop]
    split
    · exact (List.prefix_append chunks [current]).trans (ih _ _ _)
    · exact ih _ _ _

/-- Every segment of the chunk under construction ends up in some chunk. -/
theorem chunkLoop_mem_current (mc : ℕ) (os : ℚ) :
    ∀ (l : List Segment) (chunks : List (List Segment))
      (current : List Segment) (cchars : ℕ) (s : Segment),
      s ∈ current →
      ∃ c ∈ chunkLoop mc os l chunks current cchars, s ∈ c := by
  intro l
  induction l with
  | nil =>
    intro chunks current cchars s hs
    simp only [chunkLoop]
    rw [if_neg (by rintro rfl; cases hs)]
    exact ⟨current, List.mem_append_right _ (List.mem_singleton_self _), hs⟩
  | cons seg rest ih =>
    intro chunks current cchars s hs
    simp only [chunkLoop]
    split
    · have hpre := chunkLoop_emits_monotonically mc os rest (chunks ++ [current])
        (overlapOf os current ++ [seg])
        (((overlapOf os current).map
          (fun s => (segFormatted s).length)).sum +
          (segFormatted seg).length)
      exact ⟨current,
        hpre.sublist.subset (List.mem_append_right _ (List.mem_singleton_self _)),
        hs⟩
    · exact ih _ _ _ s (List.mem_append_left _ hs)

/-- Every remaining input segment ends up in some chunk. -/
theorem chunkLoop_mem_input (mc : ℕ) (os : ℚ) :
    ∀ (l : List Segment) (chunks : List (List Segment))
      (current : List Segment) (cchars : ℕ) (s : Segment),
      s ∈ l →
      ∃ c ∈ chunkLoop mc os l chunks current cchars, s ∈ c := by
  intro l
  induction l with
  | nil =>
    intro chunks current cchars s hs
    cases hs
  | cons seg rest ih =>
    intro chunks current cchars s hs
    rcases List.mem_cons.mp hs with rfl | hs'
    · simp only [chunkLoop]
      split
      · exact chunkLoop_mem_current mc os rest _ _ _ s
          (List.mem_append_right _ (List.mem_singleton_self _))
      · exact chunkLoop_mem_current mc os rest _ _ _ s
          (List.mem_append_right _ (List.mem_singleton_self _))
    · simp only [chunkLoop]
      split
      · exact ih _ _ _ s hs'
      · exact ih _ _ _ s hs'

/-- The overlap tail is a sub-sequence of its chunk. -/
theorem overlapOf_sublist (os : ℚ) (c : List Segment) :
    (overlapOf os c).Sublist c := by
  unfold overlapOf
  cases c.getLast? with
  | none => exact List.nil_sublist c
  | some lastSeg => exact List.filter_sublist c

/-- Every chunk is an order-preserving selection from the input. -/
theorem chunkLoop_sublist (mc : ℕ) (os : ℚ) (segs0 : List Segment) :
    ∀ (l : List Segment) (chunks : List (List Segment))
      (current : List Segment) (cchars : ℕ) (done : List Segment),
      done ++ l = segs0 → current.Sublist done →
      (∀ c ∈ chunks, c.Sublist segs0) →
      ∀ c ∈ chunkLoop mc os l chunks current cchars, c.Sublist segs0 := by
  intro l
  induction l with
  | nil =>
    intro chunks current cchars done hdone hcur hchunks c hc
    have hdone' : done = segs0 := by simpa using hdone
    simp only [chunkLoop] at hc
    split at hc
    · exact hchunks c hc
    · rcases List.mem_append.mp hc with hc' | hc'
      · exact hchunks c hc'
      · rw [List.mem_singleton.mp hc']
        exact hdone' ▸ hcur
  | cons seg rest ih =>
    intro chunks current cchars done hdone hcur hchunks c hc
    have hdone2 : (done ++ [seg]) ++ rest = segs0 := by
      simpa using hdone
    have hcurdone : current.Sublist segs0 :=
      hcur.trans (hdone ▸ (List.prefix_append done (seg :: rest)).sublist)
    simp only [chunkLoop] at hc
    split at hc
    · refine ih _ _ _ (done ++ [seg]) hdone2 ?_ ?_ c hc
      · exact ((overlapOf_sublist os current).append
          (List.Sublist.refl [seg])).trans
          (hcur.append (List.Sublist.refl [seg]))
      · intro c' hc'
        rcases List.mem_append.mp hc' with h | h
        · exact hchunks c' h
        · rw [List.mem_singleton.mp h]
          exact hcurdone
    · exact ih _ _ _ (done ++ [seg]) hdone2
        (hcur.append (List.Sublist.refl [seg])) hchunks c hc

/-- The carried-overlap relation between consecutive chunks. -/
def OverlapCarried (os : ℚ) (a b : List Segment) : Prop :=
  (overlapOf os a) <+: b

/-- Invariant propagation for the carried-overlap chain: if the emitted
chunks are chained and the last emitted chunk's overlap is a prefix of the
chunk under construction, the final chunk list is chained. -/
theorem chunkLoop_chain (mc : ℕ) (os : ℚ) :
    ∀ (l : List Segment) (chunks : List (List Segment))
      (current : List Segment) (cchars : ℕ),
      List.Chain' (OverlapCarried os) chunks →
      (∀ lc, chunks.getLast? = some lc → OverlapCarried os lc current) →
      List.Chain' (OverlapCarried os)
        (chunkLoop mc os l chunks current cchars) := by
  intro l
  induction l with
  | nil =>
    intro chunks current cchars hchain hlast
    simp only [chunkLoop]
    split
    · exact hchain
    · rw [List.chain'_append]
      refine ⟨hchain, List.chain'_singleton _, ?_⟩
      intro x hx y hy
      rw [List.head?_cons, Option.mem_some_iff] at hy
      exact hy ▸ hlast x (Option.mem_def.mp hx)
  | cons seg rest ih =>
    intro chunks current cchars hchain hlast
    simp only [chunkLoop]
    split
    · refine ih _ _ _ ?_ ?_
      · rw [List.chain'_append]
        refine ⟨hchain, List.chain'_singleton _, ?_⟩
        intro x hx y hy
        rw [List.head?_cons, Option.mem_some_iff] at hy
        exact hy ▸ hlast x (Option.mem_def.mp hx)
      · intro lc hlc
        rw [List.getLast?_concat] at hlc
        cases hlc
        exact List.prefix_append _ _
    · refine ih _ _ _ hchain ?_
      intro lc hlc
      exact (hlast lc hlc).trans (List.prefix_append current [seg])

/-- **C3 (amended).** The chunker covers its input with no gap: every input
segment appears in at least one chunk, and every chunk lists its segments in
original transcript order (it is a sub-sequence of the input).  Every
overlap tail carried at a chunk boundary reappears as a prefix of the next
chunk, so each overlap segment appears in at least the two consecutive
chunks it bridges — but not in *exactly* two: when the overlap window spans
a whole chunk, a segment can be carried again and appear in three or more
chunks. -/
theorem c3_chunker_coverage_and_overlap (segments : List Segment)
    (max_chars : ℕ) (os : ℚ) :
    (∀ s ∈ segments, ∃ c ∈ chunkTranscript segments max_chars os, s ∈ c)
    ∧ (∀ c ∈ chunkTranscript segments max_chars os, c.Sublist segments)
    ∧ List.Chain' (OverlapCarried os) (chunkTranscript segments max_chars os)
    ∧ (∀ c ∈ chunkTranscript segments max_chars os,
        (overlapOf os c).Sublist c) := by
  refine ⟨?_, ?_, ?_, ?_⟩
  · intro s hs
    exact chunkLoop_mem_input max_chars os segments [] [] 0 s hs
  · intro c hc
    exact chunkLoop_sublist max_chars os segments segments [] [] 0 []
      rfl (List.nil_sublist _) (by intro c' hc'; cases hc') c hc
  · exact chunkLoop_chain max_chars os segments [] [] 0
      List.chain'_nil (by intro lc hlc; cases hlc)
  · intro c _
    exact overlapOf_sublist os c

/-- Witness for C3 (amended): on a one-segment transcript the segment is
covered by some chunk. -/
theorem c3_chunker_coverage_witness :
    ∃ c ∈ chunkTranscript [{ text := "hola", start := 0, stop := 10 }]
      6000 120, ({ text := "hola", start := 0, stop := 10 } : Segment) ∈ c :=
  (c3_chunker_coverage_and_overlap
    [{ text := "hola", start := 0, stop := 10 }] 6000 120).1 _
    (List.mem_singleton_self _)

/-- A text of `n` repeated characters (dense speech), giving exact control
over a segment's `seg_chars` charge. -/
def cexText (n : ℕ) : String := String.mk (List.replicate n 'a')

/-- Counterexample segment `[0s,10s]` whose formatted line is 3001 chars. -/
def s0c3 : Segment := { text := cexText 2986, start := 0, stop := 10 }

/-- Counterexample segment `[10s,20s]` whose formatted line is 3001 chars. -/
def s1c3 : Segment := { text := cexText 2985, start := 10, stop := 20 }

/-- Counterexample segment `[20s,30s]` whose formatted line is 3001 chars. -/
def s2c3 : Segment := { text := cexText 2985, start := 20, stop := 30 }

/-- **C3** fails on the code as stated: with the default 6000-char budget and
120s overlap window, three dense segments of 10s each produce the chunks
`[[s0], [s0,s1], [s0,s1,s2]]` — the first segment is carried as overlap at
the first boundary yet appears in THREE chunks, not exactly two, because the
overlap window (120s) spans each whole chunk. -/
theorem c3_chunker_exactly_two_counterexample :
    chunkTranscript [s0c3, s1c3, s2c3] 6000 120 =
      [[s0c3], [s0c3, s1c3], [s0c3, s1c3, s2c3]]
    ∧ s0c3 ∈ overlapOf 120 [s0c3]
    ∧ (chunkTranscript [s0c3, s1c3, s2c3] 6000 120).countP
        (fun c => decide (s0c3 ∈ c)) = 3 := by
  have hf0 : fmt1 0 = "0.0" := by
    have h : (⌊(0 : ℚ) * 10 + 1 / 2⌋ : ℤ) = 0 := by norm_num
    show toString ((⌊(0 : ℚ) * 10 + 1 / 2⌋ : ℤ) / 10) ++ "." ++
      toString ((⌊(0 : ℚ) * 10 + 1 / 2⌋ : ℤ) % 10).natAbs = "0.0"
    rw [h]
    rfl
  have hf10 : fmt1 10 = "10.0" := by
    have h : (⌊(10 : ℚ) * 10 + 1 / 2⌋ : ℤ) = 100 := by norm_num
    show toString ((⌊(10 : ℚ) * 10 + 1 / 2⌋ : ℤ) / 10) ++ "." ++
      toString ((⌊(10 : ℚ) * 10 + 1 / 2⌋ : ℤ) % 10).natAbs = "10.0"
    rw [h]
    decide
  have hf20 : fmt1 20 = "20.0" := by
    have h : (⌊(20 : ℚ) * 10 + 1 / 2⌋ : ℤ) = 200 := by norm_num
    show toString ((⌊(20 : ℚ) * 10 + 1 / 2⌋ : ℤ) / 10) ++ "." ++
      toString ((⌊(20 : ℚ) * 10 + 1 / 2⌋ : ℤ) % 10).natAbs = "20.0"
    rw [h]
    decide
  have hf30 : fmt1 30 = "30.0" := by
    have h : (⌊(30 : ℚ) * 10 + 1 / 2⌋ : ℤ) = 300 := by norm_num
    show toString ((⌊(30 : ℚ) * 10 + 1 / 2⌋ : ℤ) / 10) ++ "." ++
      toString ((⌊(30 : ℚ) * 10 + 1 / 2⌋ : ℤ) % 10).natAbs = "30.0"
    rw [h]
    decide
  have hct86 : (cexText 2986).length = 2986 := by
    show (List.replicate 2986 'a').length = 2986
    exact List.length_replicate 2986 'a'
  have hct85 : (cexText 2985).length = 2985 := by
    show (List.replicate 2985 'a').length = 2985
    exact List.length_replicate 2985 'a'

  have hl0 : (segFormatted s0c3).length = 3001 := by
    show ("[" ++ fmt1 0 ++ "s - " ++ fmt1 10 ++ "s] " ++ cexText 2986).length
      = 3001
    rw [hf0, hf10]
    simp only [String.length_append, hct86]
    decide
  have hl1 : (segFormatted s1c3).length = 3001 := by
    show ("[" ++ fmt1 10 ++ "s - " ++ fmt1 20 ++ "s] " ++ cexText 2985).length
      = 3001
    rw [hf10, hf20]
    simp only [String.length_append, hct85]
    decide
  have hl2 : (segFormatted s2c3).length = 3001 := by
    show ("[" ++ fmt1 20 ++ "s - " ++ fmt1 30 ++ "s] " ++ cexText 2985).length
      = 3001
    rw [hf20, hf30]
    simp only [String.length_append, hct85]
    decide
  have hs0a : s0c3.start = 0 := rfl
  have hs0b : s0c3.stop = 10 := rfl
  have hs1a : s1c3.start = 10 := rfl
  have hs1b : s1c3.stop = 20 := rfl
  have hs2a : s2c3.start = 20 := rfl
  have hs2b : s2c3.stop = 30 := rfl
  have hd0 : decide ((10 : ℚ) - 120 ≤ 0) = true := decide_eq_true (by norm_num)
  have hd1 : decide ((20 : ℚ) - 120 ≤ 0) = true := decide_eq_true (by norm_num)
  have hd2 : decide ((20 : ℚ) - 120 ≤ 10) = true :=
    decide_eq_true (by norm_num)
  have htrace : chunkTranscript [s0c3, s1c3, s2c3] 6000 120 =
      [[s0c3], [s0c3, s1c3], [s0c3, s1c3, s2c3]] := by
    norm_num [chunkTranscript, chunkLoop, overlapOf, hl0, hl1, hl2,
      hs0a, hs0b, hs1a, hs1b, hs2a, hs2b, hd0, hd1, hd2,
      List.filter_cons, List.getLast?]
    simp
  refine ⟨htrace, ?_, ?_⟩
  · simp [overlapOf, List.getLast?, hs0a, hs0b, hd0, List.filter_cons]
    norm_num
  · rw [htrace]
    have e1 : decide (s0c3 ∈ [s0c3]) = true :=
      decide_eq_true (List.mem_singleton_self _)
    have e2 : decide (s0c3 ∈ [s0c3, s1c3]) = true := decide_eq_true (by simp)
    have e3 : decide (s0c3 ∈ [s0c3, s1c3, s2c3]) = true :=
      decide_eq_true (by simp)
    simp [List.countP_cons, List.countP_nil, e1, e2, e3]

end CeliaClips
